import Mathlib

/-!
Verification of nature-remo-exporter: a shallow embedding of `nature-remo-exporter.go`

The program polls the Nature Remo API every 15 seconds and republishes the
newest sensor readings as five Prometheus gauge vectors.  The embedding keeps
the source's names.  The three libraries the program talks to are represented
by what they hand back to the program:

* `net/http`: `HttpEnv` (what `http.NewRequest` makes of the URL string, and
  `DefaultClient.Do`);
* `encoding/json`: a response body is represented by the outcome of decoding it;
* `prometheus`: a gauge vector is an association list from label values to the
  last value set, `With(labels).Set(v)` being insert-or-overwrite.
-/

namespace NatureRemo

/-! ## Data model -/

/-- A Go `float64`, represented by its IEEE-754 bit pattern.  The program only
copies such values from the decoded response into the gauges. -/
structure Float64 where
  bits : Nat
  deriving DecidableEq, Repr

/-- A Go `time.Time`, represented by an integer instant. -/
abbrev Time := Int

/-- A Go `error` value, represented by its message. -/
abbrev Error := String

structure SensorValue where
  Val : Float64
  CreatedAt : Time
  deriving DecidableEq, Repr

structure Events where
  Temperature : SensorValue
  Humidity : SensorValue
  Illumination : SensorValue
  Movement : SensorValue
  deriving DecidableEq, Repr

structure Device where
  ID : String
  Name : String
  TemperatureOffset : Float64
  HumidityOffset : Float64
  CreatedAt : Time
  UpdatedAt : Time
  FirmwareVersion : String
  MacAddress : String
  SerialNumber : String
  NewestEvents : Events
  deriving DecidableEq, Repr

structure NatureRemoConfig where
  ApiKey : String
  BaseUrl : String
  deriving DecidableEq, Repr

structure PromHttpConfig where
  ListenAddress : String
  deriving DecidableEq, Repr

structure Config where
  NatureRemo : NatureRemoConfig
  PromHttp : PromHttpConfig
  deriving DecidableEq, Repr

/-! ## The gauge registry -/

/-- The value of a `prometheus.Labels` map over the label names
`tags = ["id", "name", "serial_number"]`. -/
structure Labels where
  id : String
  name : String
  serial_number : String
  deriving DecidableEq, Repr

/-- A `GaugeVec` over `tags`: one entry per label combination seen so far,
holding the last value set. -/
abbrev GaugeVec := List (Labels × Float64)

/-- The effect of `vec.With(labels).Set(v)`: the entry for `labels` is created on
first use and overwritten in place afterwards. -/
def GaugeVec.withSet : GaugeVec → Labels → Float64 → GaugeVec
  | [], labels, v => [(labels, v)]
  | (k, w) :: rest, labels, v =>
    if k = labels then (labels, v) :: rest
    else (k, w) :: GaugeVec.withSet rest labels v

/-- The value currently held for a label combination, if there is an entry. -/
def GaugeVec.get? : GaugeVec → Labels → Option Float64
  | [], _ => none
  | (k, w) :: rest, labels => if k = labels then some w else GaugeVec.get? rest labels

/-- The label combinations that have an entry, in order of creation. -/
def GaugeVec.keys (vec : GaugeVec) : List Labels := vec.map Prod.fst

/-- The five gauge vectors declared at package level. -/
inductive MetricKind where
  | temperature
  | temperatureOffset
  | humidity
  | humidityOffset
  | illumination
  deriving DecidableEq, Repr

/-- One `With(labels).Set(value)` call on one of the five gauge vectors. -/
structure SetCall where
  kind : MetricKind
  labels : Labels
  value : Float64
  deriving DecidableEq, Repr

/-- The package-level gauge state, together with the log of the set calls made
on it so far (oldest first). -/
structure Metrics where
  temperature : GaugeVec
  temperatureOffset : GaugeVec
  humidity : GaugeVec
  humidityOffset : GaugeVec
  illumination : GaugeVec
  calls : List SetCall
  deriving DecidableEq, Repr

/-- The gauge state at process start: five registered vectors without entries. -/
def Metrics.empty : Metrics := ⟨[], [], [], [], [], []⟩

/-- The series of one metric kind. -/
def Metrics.series (m : Metrics) : MetricKind → GaugeVec
  | .temperature => m.temperature
  | .temperatureOffset => m.temperatureOffset
  | .humidity => m.humidity
  | .humidityOffset => m.humidityOffset
  | .illumination => m.illumination

/-- Performs `<kind>.With(labels).Set(v)` and records the call. -/
def Metrics.set (m : Metrics) (kind : MetricKind) (labels : Labels) (v : Float64) : Metrics :=
  match kind with
  | .temperature =>
    { m with temperature := m.temperature.withSet labels v,
             calls := m.calls ++ [⟨kind, labels, v⟩] }
  | .temperatureOffset =>
    { m with temperatureOffset := m.temperatureOffset.withSet labels v,
             calls := m.calls ++ [⟨kind, labels, v⟩] }
  | .humidity =>
    { m with humidity := m.humidity.withSet labels v,
             calls := m.calls ++ [⟨kind, labels, v⟩] }
  | .humidityOffset =>
    { m with humidityOffset := m.humidityOffset.withSet labels v,
             calls := m.calls ++ [⟨kind, labels, v⟩] }
  | .illumination =>
    { m with illumination := m.illumination.withSet labels v,
             calls := m.calls ++ [⟨kind, labels, v⟩] }

/-! ## The device client -/

/-- An `http.Request` as `fetchDevices` builds it: the method, the URL of the
request (the parsed `req.URL`, written as `req.URL.String()` renders it) and the
header entries added. -/
structure Request where
  Method : String
  URL : String
  Header : List (String × String)
  deriving DecidableEq, Repr

/-- A response body, represented by what `json.NewDecoder(body).Decode(&devices)`
makes of it: the contents of `devices` afterwards and the error returned. -/
structure Body where
  decoded : List Device
  decodeErr : Option Error
  deriving DecidableEq, Repr

structure Response where
  StatusCode : Nat
  Body : Body
  deriving DecidableEq, Repr

/-- What the network and `net/http` answer during one call of `fetchDevices`. -/
structure HttpEnv where
  /-- the outcome of `http.NewRequest(method, url, nil)`: its error, or the URL of
  the request it returns, which is what `url.Parse` makes of the string `url`
  (with an empty port removed), as `String()` renders it -/
  newRequest : String → String → Except Error String
  /-- the outcome of `http.DefaultClient.Do(req)` -/
  doRequest : Request → Except Error Response

/-- The result of `fetchDevices`: the returned pair and the requests handed to
`http.DefaultClient.Do` on the way. -/
structure FetchResult where
  devices : List Device
  err : Option Error
  issued : List Request

def getLabel (device : Device) : Labels :=
  { id := device.ID
    name := device.Name
    serial_number := device.SerialNumber }

def fetchDevices (env : HttpEnv) (config : Config) : FetchResult :=
  let path := "https://" ++ config.NatureRemo.BaseUrl ++ "/1/devices"
  match env.newRequest "GET" path with
  | .error err => ⟨[], some err, []⟩
  | .ok url =>
    let req : Request := ⟨"GET", url, []⟩
    let req := { req with Header := req.Header ++ [("Authorization", "Bearer " ++ config.NatureRemo.ApiKey)] }
    match env.doRequest req with
    | .error err => ⟨[], some err, [req]⟩
    | .ok resp => ⟨resp.Body.decoded, resp.Body.decodeErr, [req]⟩

/-! ## The refresh engine -/

/-- The body of the `for _, device := range devices` loop of `updateMetrics`. -/
def updateDevice (m : Metrics) (device : Device) : Metrics :=
  let labels := getLabel device
  let m := m.set .temperature labels device.NewestEvents.Temperature.Val
  let m := m.set .temperatureOffset labels device.TemperatureOffset
  let m := m.set .humidity labels device.NewestEvents.Humidity.Val
  let m := m.set .humidityOffset labels device.TemperatureOffset
  let m := m.set .illumination labels device.NewestEvents.Illumination.Val
  m

/-- Runs `updateMetrics(config)` on the gauge state `m`: the gauge state
afterwards and the returned error. -/
def updateMetrics (env : HttpEnv) (config : Config) (m : Metrics) : Metrics × Option Error :=
  let r := fetchDevices env config
  match r.err with
  | some _ => (m, none)
  | none => (r.devices.foldl updateDevice m, none)

/-- The value that `updateMetrics` passes to `Set` on the gauge vector of each
kind for a device (the argument of the five `Set` calls of the loop body). -/
def gaugeValue : MetricKind → Device → Float64
  | .temperature, device => device.NewestEvents.Temperature.Val
  | .temperatureOffset, device => device.TemperatureOffset
  | .humidity, device => device.NewestEvents.Humidity.Val
  | .humidityOffset, device => device.TemperatureOffset
  | .illumination, device => device.NewestEvents.Illumination.Val

/-! ## The polling loop -/

/-- What the `select` of `poll` can receive: a tick of the 15 second ticker (with
the answers the network gives to the cycle it starts) or a value on `cancel`. -/
inductive Event where
  | tick (env : HttpEnv)
  | cancel

/-- The observable steps of `poll`. -/
inductive PollAction where
  | cycleStarted
  | cancelReceived
  deriving DecidableEq, Repr

structure PollState where
  metrics : Metrics
  /-- the messages passed to `cmd.Errorf` -/
  errors : List String
  /-- the steps taken so far, oldest first -/
  trace : List PollAction
  deriving DecidableEq, Repr

/-- The function literal that `poll` starts with `go` on every tick, run to
completion. -/
def cycle (env : HttpEnv) (config : Config) (s : PollState) : PollState :=
  let (m, err) := updateMetrics env config s.metrics
  match err with
  | some e => { s with metrics := m, errors := s.errors ++ ["error while updating metrics: " ++ e] }
  | none => { s with metrics := m }

/-- How control leaves the `select` statement inside the `for` of `poll`. -/
inductive Flow where
  | nextIteration
  | leaveLoop
  deriving DecidableEq, Repr

/-- One pass through the `select` of `poll`.  In the `cancel` case the body is
a bare `break`, which in Go ends the `select` statement; the `for` has no
label, so control reaches the end of the loop body. -/
def selectStep (config : Config) (s : PollState) : Event → PollState × Flow
  | .tick env => (cycle env config { s with trace := s.trace ++ [.cycleStarted] }, .nextIteration)
  | .cancel => ({ s with trace := s.trace ++ [.cancelReceived] }, .nextIteration)

/-- The loop of `poll`, driven by the events its `select` receives. -/
def poll (config : Config) : List Event → PollState → PollState
  | [], s => s
  | e :: es, s =>
    match selectStep config s e with
    | (s', .nextIteration) => poll config es s'
    | (s', .leaveLoop) => s'

/-! ## Configuration -/

/-- The keys of a configuration document that `Config` has fields for; `none`
is a key the document does not have. -/
structure YamlDoc where
  nature_remo_api_key : Option String
  nature_remo_base_url : Option String
  promhttp_listen_address : Option String
  deriving DecidableEq, Repr

/-- The effect of `yaml.NewDecoder(file).Decode(cfg)` on `cfg`: the keys the document
has are stored, the other fields keep their value. -/
def yamlDecode (doc : YamlDoc) (cfg : Config) : Config :=
  { NatureRemo :=
      { ApiKey := doc.nature_remo_api_key.getD cfg.NatureRemo.ApiKey
        BaseUrl := doc.nature_remo_base_url.getD cfg.NatureRemo.BaseUrl }
    PromHttp :=
      { ListenAddress := doc.promhttp_listen_address.getD cfg.PromHttp.ListenAddress } }

/-- What the command line and the file system answer during `setup`. -/
structure SetupEnv where
  /-- the outcome of `cmd.Parse(os.Args[1:])`: the value of the `config` flag -/
  parseArgs : Except Error String
  /-- the outcome of `os.Open`: `none` when the file cannot be opened, else the
  document the decoder reads from it, or the decoder's error -/
  openFile : String → Option (Except Error YamlDoc)

def setup (env : SetupEnv) : Except Error Config :=
  match env.parseArgs with
  | .error err => .error err
  | .ok config =>
    match env.openFile config with
    | none => .error ("couldn't open configuration file: " ++ config)
    | some (.error err) => .error err
    | some (.ok doc) =>
      let cfg : Config := ⟨⟨"", ""⟩, ⟨""⟩⟩
      let cfg := yamlDecode doc cfg
      let cfg :=
        if cfg.NatureRemo.BaseUrl = "" then
          { cfg with NatureRemo := { cfg.NatureRemo with BaseUrl := "api.nature.global" } }
        else cfg
      .ok cfg

/-! ## Sample data -/

/-- The device of the end-to-end scenario: `d1`/`Room`/`S1`, temperature
offset 0.5, readings 21.3, 40.0 and 100.0. -/
def roomDevice : Device :=
  { ID := "d1", Name := "Room", TemperatureOffset := ⟨0x3FE0000000000000⟩,
    HumidityOffset := ⟨0⟩, CreatedAt := 0, UpdatedAt := 0, FirmwareVersion := "Remo/1.0.62",
    MacAddress := "aa:bb:cc:dd:ee:ff", SerialNumber := "S1",
    NewestEvents :=
      { Temperature := ⟨⟨0x40354CCCCCCCCCCD⟩, 0⟩, Humidity := ⟨⟨0x4044000000000000⟩, 0⟩,
        Illumination := ⟨⟨0x4059000000000000⟩, 0⟩, Movement := ⟨⟨0⟩, 0⟩ } }

/-- A second device sharing no label with `roomDevice`: `d2`/`Hall`/`S2`,
temperature offset 1.0, readings 22.0, 40.0 and 100.0. -/
def hallDevice : Device :=
  { ID := "d2", Name := "Hall", TemperatureOffset := ⟨0x3FF0000000000000⟩,
    HumidityOffset := ⟨0⟩, CreatedAt := 0, UpdatedAt := 0, FirmwareVersion := "Remo/1.0.62",
    MacAddress := "aa:bb:cc:dd:ee:00", SerialNumber := "S2",
    NewestEvents :=
      { Temperature := ⟨⟨0x4036000000000000⟩, 0⟩, Humidity := ⟨⟨0x4044000000000000⟩, 0⟩,
        Illumination := ⟨⟨0x4059000000000000⟩, 0⟩, Movement := ⟨⟨0⟩, 0⟩ } }

def sampleConfig : Config := ⟨⟨"X", "api.nature.global"⟩, ⟨":9199"⟩⟩

/-- A network that answers every request with the given status and body.  The
URL strings it is used with have nothing for `url.Parse` to rewrite, so the
request carries the string as given. -/
def HttpEnv.answering (status : Nat) (body : Body) : HttpEnv :=
  { newRequest := fun _ url => .ok url
    doRequest := fun _ => .ok ⟨status, body⟩ }

/-- A network on which every request fails in transport.  The URL strings it
is used with have nothing for `url.Parse` to rewrite. -/
def HttpEnv.unreachable : HttpEnv :=
  { newRequest := fun _ url => .ok url
    doRequest := fun _ => .error "dial tcp: connection refused" }

/-- A network on which every request fails in transport, with `http.NewRequest`
as `net/url` behaves on a space in the path: `url.Parse` accepts
`https://host/a b/1/devices` and the parsed URL reads
`https://host/a%20b/1/devices`. -/
def HttpEnv.escaping : HttpEnv :=
  { newRequest := fun _ url =>
      if url = "https://host/a b/1/devices" then .ok "https://host/a%20b/1/devices" else .ok url
    doRequest := fun _ => .error "dial tcp: connection refused" }

/-- A network on which the request is sent and the body of the answer fails to
decode after the given devices were stored in the slice. -/
def HttpEnv.garbled (status : Nat) (stored : List Device) : HttpEnv :=
  HttpEnv.answering status ⟨stored, some "json: cannot unmarshal string into Go struct field Device.temperature_offset of type float64"⟩

/-- Two devices agree on the fields that `updateMetrics` reads: the three
label fields, the temperature offset and the newest temperature, humidity and
illumination values. -/
def exportedAgree (d d' : Device) : Prop :=
  d.ID = d'.ID ∧ d.Name = d'.Name ∧ d.SerialNumber = d'.SerialNumber ∧
  d.TemperatureOffset = d'.TemperatureOffset ∧
  d.NewestEvents.Temperature.Val = d'.NewestEvents.Temperature.Val ∧
  d.NewestEvents.Humidity.Val = d'.NewestEvents.Humidity.Val ∧
  d.NewestEvents.Illumination.Val = d'.NewestEvents.Illumination.Val

/-! ## Gauge vectors: lookup and key lemmas -/

theorem GaugeVec.get?_withSet_self (vec : GaugeVec) (k : Labels) (v : Float64) :
    (vec.withSet k v).get? k = some v := by
  induction vec with
  | nil => simp [GaugeVec.withSet, GaugeVec.get?]
  | cons e rest ih =>
    obtain ⟨k', w⟩ := e
    by_cases h : k' = k
    · simp [GaugeVec.withSet, GaugeVec.get?, h]
    · simp [GaugeVec.withSet, GaugeVec.get?, h, ih]

theorem GaugeVec.get?_withSet_of_ne (vec : GaugeVec) (k k' : Labels) (v : Float64)
    (hne : k ≠ k') : (vec.withSet k v).get? k' = vec.get? k' := by
  induction vec with
  | nil => simp [GaugeVec.withSet, GaugeVec.get?, hne]
  | cons e rest ih =>
    obtain ⟨k₀, w⟩ := e
    by_cases h : k₀ = k
    · subst h
      simp [GaugeVec.withSet, GaugeVec.get?, hne]
    · by_cases h' : k₀ = k'
      · subst h'
        simp [GaugeVec.withSet, GaugeVec.get?, h]
      · simp [GaugeVec.withSet, GaugeVec.get?, h, h', ih]

theorem GaugeVec.keys_withSet_of_mem (vec : GaugeVec) (k : Labels) (v : Float64)
    (hmem : k ∈ vec.keys) : (vec.withSet k v).keys = vec.keys := by
  induction vec with
  | nil => simp [GaugeVec.keys] at hmem
  | cons e rest ih =>
    obtain ⟨k₀, w⟩ := e
    by_cases h : k₀ = k
    · simp [GaugeVec.withSet, GaugeVec.keys, h]
    · have hrest : k ∈ GaugeVec.keys rest := by
        simp only [GaugeVec.keys, List.map_cons, List.mem_cons] at hmem
        rcases hmem with hk | hk
        · exact absurd hk.symm h
        · exact hk
      have := ih hrest
      simp only [GaugeVec.keys] at this
      simp [GaugeVec.withSet, GaugeVec.keys, h, this]

theorem GaugeVec.keys_withSet_of_not_mem (vec : GaugeVec) (k : Labels) (v : Float64)
    (hmem : k ∉ vec.keys) : (vec.withSet k v).keys = vec.keys ++ [k] := by
  induction vec with
  | nil => simp [GaugeVec.withSet, GaugeVec.keys]
  | cons e rest ih =>
    obtain ⟨k₀, w⟩ := e
    simp only [GaugeVec.keys, List.map_cons, List.mem_cons, not_or] at hmem
    have h : ¬ k₀ = k := fun hk => hmem.1 hk.symm
    have := ih hmem.2
    simp only [GaugeVec.keys] at this
    simp [GaugeVec.withSet, GaugeVec.keys, h, this]

theorem GaugeVec.mem_keys_withSet (vec : GaugeVec) (k k' : Labels) (v : Float64) :
    k' ∈ (vec.withSet k v).keys ↔ k' = k ∨ k' ∈ vec.keys := by
  by_cases hmem : k ∈ vec.keys
  · rw [GaugeVec.keys_withSet_of_mem vec k v hmem]
    constructor
    · exact fun h => Or.inr h
    · rintro (h | h)
      · exact h ▸ hmem
      · exact h
  · rw [GaugeVec.keys_withSet_of_not_mem vec k v hmem]
    simp [or_comm]

theorem GaugeVec.nodup_keys_withSet (vec : GaugeVec) (k : Labels) (v : Float64)
    (hnd : vec.keys.Nodup) : (vec.withSet k v).keys.Nodup := by
  by_cases hmem : k ∈ vec.keys
  · rw [GaugeVec.keys_withSet_of_mem vec k v hmem]
    exact hnd
  · rw [GaugeVec.keys_withSet_of_not_mem vec k v hmem]
    exact List.Nodup.append hnd (List.nodup_singleton k) (by simpa using hmem)

theorem GaugeVec.get?_eq_none_iff (vec : GaugeVec) (k : Labels) :
    vec.get? k = none ↔ k ∉ vec.keys := by
  induction vec with
  | nil => simp [GaugeVec.get?, GaugeVec.keys]
  | cons e rest ih =>
    obtain ⟨k₀, w⟩ := e
    by_cases h : k₀ = k
    · simp [GaugeVec.get?, GaugeVec.keys, h]
    · have hk : ¬ k = k₀ := fun hk => h hk.symm
      simp only [GaugeVec.keys] at ih
      simp [GaugeVec.get?, GaugeVec.keys, h, hk, ih]

/-! ## One device, then a list of devices -/

theorem series_updateDevice (m : Metrics) (device : Device) (kind : MetricKind) :
    (updateDevice m device).series kind
      = (m.series kind).withSet (getLabel device) (gaugeValue kind device) := by
  cases kind <;> rfl

theorem calls_updateDevice (m : Metrics) (device : Device) :
    (updateDevice m device).calls = m.calls ++
      [⟨.temperature, getLabel device, device.NewestEvents.Temperature.Val⟩,
       ⟨.temperatureOffset, getLabel device, device.TemperatureOffset⟩,
       ⟨.humidity, getLabel device, device.NewestEvents.Humidity.Val⟩,
       ⟨.humidityOffset, getLabel device, device.TemperatureOffset⟩,
       ⟨.illumination, getLabel device, device.NewestEvents.Illumination.Val⟩] := by
  simp [updateDevice, Metrics.set]

theorem get?_series_foldl (kind : MetricKind) (k : Labels) (devices : List Device) (m : Metrics) :
    ((devices.foldl updateDevice m).series kind).get? k
      = match devices.reverse.find? (fun d => decide (getLabel d = k)) with
        | some d => some (gaugeValue kind d)
        | none => (m.series kind).get? k := by
  induction devices generalizing m with
  | nil => simp
  | cons d rest ih =>
    rw [List.foldl_cons, ih, List.reverse_cons, List.find?_append]
    cases hfind : rest.reverse.find? (fun d => decide (getLabel d = k)) with
    | some d' => simp
    | none =>
      by_cases h : getLabel d = k
      · subst h
        simp [List.find?, series_updateDevice, GaugeVec.get?_withSet_self]
      · simp [List.find?, h, series_updateDevice, GaugeVec.get?_withSet_of_ne _ _ _ _ h]

theorem mem_keys_series_foldl (kind : MetricKind) (k : Labels) (devices : List Device)
    (m : Metrics) :
    k ∈ ((devices.foldl updateDevice m).series kind).keys
      ↔ k ∈ (m.series kind).keys ∨ k ∈ devices.map getLabel := by
  induction devices generalizing m with
  | nil => simp
  | cons d rest ih =>
    rw [List.foldl_cons, ih, series_updateDevice, GaugeVec.mem_keys_withSet]
    simp only [List.map_cons, List.mem_cons]
    tauto

theorem keys_series_foldl_of_subset (kind : MetricKind) (devices : List Device) (m : Metrics)
    (hsub : ∀ d ∈ devices, getLabel d ∈ (m.series kind).keys) :
    ((devices.foldl updateDevice m).series kind).keys = (m.series kind).keys := by
  induction devices generalizing m with
  | nil => simp
  | cons d rest ih =>
    have hd : (( updateDevice m d).series kind).keys = (m.series kind).keys := by
      rw [series_updateDevice]
      exact GaugeVec.keys_withSet_of_mem _ _ _ (hsub d (List.mem_cons_self d rest))
    rw [List.foldl_cons, ih, hd]
    intro d' hd'
    rw [hd]
    exact hsub d' (List.mem_cons_of_mem d hd')

theorem nodup_keys_series_foldl (kind : MetricKind) (devices : List Device) (m : Metrics)
    (hnd : (m.series kind).keys.Nodup) :
    ((devices.foldl updateDevice m).series kind).keys.Nodup := by
  induction devices generalizing m with
  | nil => simpa using hnd
  | cons d rest ih =>
    rw [List.foldl_cons]
    apply ih
    rw [series_updateDevice]
    exact GaugeVec.nodup_keys_withSet _ _ _ hnd

theorem calls_foldl (devices : List Device) (m : Metrics) :
    (devices.foldl updateDevice m).calls = m.calls ++ devices.flatMap (fun d =>
      [(⟨.temperature, getLabel d, d.NewestEvents.Temperature.Val⟩ : SetCall),
       ⟨.temperatureOffset, getLabel d, d.TemperatureOffset⟩,
       ⟨.humidity, getLabel d, d.NewestEvents.Humidity.Val⟩,
       ⟨.humidityOffset, getLabel d, d.TemperatureOffset⟩,
       ⟨.illumination, getLabel d, d.NewestEvents.Illumination.Val⟩]) := by
  induction devices generalizing m with
  | nil => simp
  | cons d rest ih =>
    rw [List.foldl_cons, ih, calls_updateDevice]
    simp [List.flatMap_cons]

theorem length_flatMap_of_const {α β : Type} (f : α → List β) (n : Nat)
    (hf : ∀ a, (f a).length = n) (l : List α) : (l.flatMap f).length = n * l.length := by
  induction l with
  | nil => simp
  | cons a rest ih =>
    rw [List.flatMap_cons, List.length_append, hf, ih, List.length_cons, Nat.mul_succ]
    omega

theorem updateMetrics_of_err (env : HttpEnv) (config : Config) (m : Metrics)
    (h : (fetchDevices env config).err ≠ none) : updateMetrics env config m = (m, none) := by
  unfold updateMetrics
  cases herr : (fetchDevices env config).err with
  | none => exact absurd herr h
  | some e => simp [herr]

theorem updateMetrics_of_ok (env : HttpEnv) (config : Config) (m : Metrics)
    (h : (fetchDevices env config).err = none) :
    updateMetrics env config m = ((fetchDevices env config).devices.foldl updateDevice m, none) := by
  unfold updateMetrics
  simp [h]

theorem updateDevice_congr (m : Metrics) (d d' : Device) (h : exportedAgree d d') :
    updateDevice m d = updateDevice m d' := by
  obtain ⟨h1, h2, h3, h4, h5, h6, h7⟩ := h
  simp only [updateDevice, getLabel, h1, h2, h3, h4, h5, h6, h7]

theorem foldl_updateDevice_congr (m : Metrics) (ds ds' : List Device)
    (h : List.Forall₂ exportedAgree ds ds') :
    ds.foldl updateDevice m = ds'.foldl updateDevice m := by
  induction h generalizing m with
  | nil => rfl
  | cons hd _ ih => rw [List.foldl_cons, List.foldl_cons, updateDevice_congr m _ _ hd, ih]

theorem find?_reverse_label_of_mem (devices : List Device) (d : Device) (hd : d ∈ devices) :
    ∃ dl, devices.reverse.find? (fun x => decide (getLabel x = getLabel d)) = some dl := by
  cases hfind : devices.reverse.find? (fun x => decide (getLabel x = getLabel d)) with
  | some dl => exact ⟨dl, rfl⟩
  | none =>
    rw [List.find?_eq_none] at hfind
    have := hfind d (List.mem_reverse.mpr hd)
    simp at this

theorem find?_reverse_label_of_not_mem (devices : List Device) (k : Labels)
    (hk : ∀ d ∈ devices, getLabel d ≠ k) :
    devices.reverse.find? (fun x => decide (getLabel x = k)) = none := by
  rw [List.find?_eq_none]
  intro d hd
  simpa using hk d (List.mem_reverse.mp hd)

theorem fetchDevices_err_of_response (env : HttpEnv) (config : Config) (req : Request)
    (resp : Response) (hreq : (fetchDevices env config).issued = [req])
    (hdo : env.doRequest req = .ok resp) :
    (fetchDevices env config).err = resp.Body.decodeErr ∧
      (fetchDevices env config).devices = resp.Body.decoded := by
  cases hnew : env.newRequest "GET" ("https://" ++ config.NatureRemo.BaseUrl ++ "/1/devices") with
  | error e => simp [fetchDevices, hnew] at hreq
  | ok url =>
    cases hres : env.doRequest
        ⟨"GET", url, [("Authorization", "Bearer " ++ config.NatureRemo.ApiKey)]⟩ with
    | error e =>
      simp only [fetchDevices, hnew, hres, List.nil_append] at hreq
      have hr := (List.cons.inj hreq).1
      rw [hr] at hres
      rw [hres] at hdo
      cases hdo
    | ok r =>
      simp only [fetchDevices, hnew, hres, List.nil_append] at hreq
      have hr := (List.cons.inj hreq).1
      rw [hr] at hres
      rw [hres] at hdo
      cases hdo
      simp [fetchDevices, hnew, hr ▸ hres]

/-! ## Fetch failures leave the gauges alone -/

/-- C1: when `fetchDevices` returns an error (whatever the slice returned with
it), the gauge state after `updateMetrics` is the gauge state before it: the five
series are unchanged and no set call was made. -/
theorem updateMetrics_fetch_error_keeps_gauges (env : HttpEnv) (config : Config) (m : Metrics)
    (herr : (fetchDevices env config).err ≠ none) :
    (updateMetrics env config m).1 = m := by
  rw [updateMetrics_of_err env config m herr]

/-- C1, at a decode error that arrives after `roomDevice` was decoded, from a
state that already holds the entries of `hallDevice`. -/
theorem updateMetrics_fetch_error_keeps_gauges_witness :
    (fetchDevices (HttpEnv.garbled 200 [roomDevice]) sampleConfig).err ≠ none ∧
    (fetchDevices (HttpEnv.garbled 200 [roomDevice]) sampleConfig).devices = [roomDevice] ∧
    (updateMetrics (HttpEnv.garbled 200 [roomDevice]) sampleConfig
        (updateDevice Metrics.empty hallDevice)).1 = updateDevice Metrics.empty hallDevice :=
  ⟨by decide, by decide,
    updateMetrics_fetch_error_keeps_gauges (HttpEnv.garbled 200 [roomDevice]) sampleConfig
      (updateDevice Metrics.empty hallDevice) (by decide)⟩

/-! ## A successful cycle -/

/-- C2: after a successful fetch, `updateMetrics` makes exactly five set calls per
returned device, in list order and in the order temperature, temperature offset,
humidity, humidity offset, illumination, all under the labels (id, name,
serial_number) of the device, the humidity offset gauge receiving the
temperature offset; so `5 * length` calls in all, and each series then holds at a
label key the value of the last returned device with that key. -/
theorem updateMetrics_sets_every_device (env : HttpEnv) (config : Config) (m : Metrics)
    (hok : (fetchDevices env config).err = none) :
    (updateMetrics env config m).1.calls
        = m.calls ++ (fetchDevices env config).devices.flatMap (fun d =>
            [(⟨.temperature, ⟨d.ID, d.Name, d.SerialNumber⟩, d.NewestEvents.Temperature.Val⟩ : SetCall),
             ⟨.temperatureOffset, ⟨d.ID, d.Name, d.SerialNumber⟩, d.TemperatureOffset⟩,
             ⟨.humidity, ⟨d.ID, d.Name, d.SerialNumber⟩, d.NewestEvents.Humidity.Val⟩,
             ⟨.humidityOffset, ⟨d.ID, d.Name, d.SerialNumber⟩, d.TemperatureOffset⟩,
             ⟨.illumination, ⟨d.ID, d.Name, d.SerialNumber⟩, d.NewestEvents.Illumination.Val⟩]) ∧
      (updateMetrics env config m).1.calls.length
        = m.calls.length + 5 * (fetchDevices env config).devices.length ∧
      ∀ (k : Labels) (dl : Device),
        (fetchDevices env config).devices.reverse.find?
            (fun d => decide ((⟨d.ID, d.Name, d.SerialNumber⟩ : Labels) = k)) = some dl →
          (updateMetrics env config m).1.temperature.get? k
              = some dl.NewestEvents.Temperature.Val ∧
            (updateMetrics env config m).1.temperatureOffset.get? k = some dl.TemperatureOffset ∧
            (updateMetrics env config m).1.humidity.get? k = some dl.NewestEvents.Humidity.Val ∧
            (updateMetrics env config m).1.humidityOffset.get? k = some dl.TemperatureOffset ∧
            (updateMetrics env config m).1.illumination.get? k
              = some dl.NewestEvents.Illumination.Val := by
  rw [updateMetrics_of_ok env config m hok]
  have hcalls := calls_foldl (fetchDevices env config).devices m
  simp only [getLabel] at hcalls
  refine ⟨hcalls, ?_, ?_⟩
  · rw [hcalls, List.length_append]
    congr 1
    apply length_flatMap_of_const
    intro d
    rfl
  · intro k dl hfind
    have hget : ∀ kind : MetricKind,
        (((fetchDevices env config).devices.foldl updateDevice m).series kind).get? k
          = some (gaugeValue kind dl) := by
      intro kind
      have h := get?_series_foldl kind k (fetchDevices env config).devices m
      simp only [getLabel] at h
      rw [h, hfind]
    exact ⟨hget .temperature, hget .temperatureOffset, hget .humidity, hget .humidityOffset,
      hget .illumination⟩

/-- C2, on the end-to-end scenario: one device `d1`/`Room`/`S1` with temperature
offset 0.5 and temperature 21.3 gives five calls, temperature 21.3 and
temperature offset 0.5 under that label key. -/
theorem updateMetrics_sets_every_device_witness :
    (fetchDevices (HttpEnv.answering 200 ⟨[roomDevice], none⟩) sampleConfig).err = none ∧
    (updateMetrics (HttpEnv.answering 200 ⟨[roomDevice], none⟩) sampleConfig
        Metrics.empty).1.calls.length = 5 ∧
    (updateMetrics (HttpEnv.answering 200 ⟨[roomDevice], none⟩) sampleConfig
        Metrics.empty).1.temperature.get? ⟨"d1", "Room", "S1"⟩ = some ⟨0x40354CCCCCCCCCCD⟩ ∧
    (updateMetrics (HttpEnv.answering 200 ⟨[roomDevice], none⟩) sampleConfig
        Metrics.empty).1.temperatureOffset.get? ⟨"d1", "Room", "S1"⟩
        = some ⟨0x3FE0000000000000⟩ :=
  have h := updateMetrics_sets_every_device (HttpEnv.answering 200 ⟨[roomDevice], none⟩)
    sampleConfig Metrics.empty (by decide)
  have hv := h.2.2 ⟨"d1", "Room", "S1"⟩ roomDevice (by decide)
  ⟨by decide, h.2.1, hv.1, hv.2.1⟩

/-! ## No eviction -/

/-- C6: a successful cycle leaves, in each of the five series, the entry of every
label key that no returned device has exactly as it was (present with the same
value, or absent), and every returned device has an entry under its own label
key afterwards; so a renamed device leaves its old entries behind and gets new
ones. -/
theorem absent_label_keeps_entry (env : HttpEnv) (config : Config) (m : Metrics) (k : Labels)
    (hok : (fetchDevices env config).err = none)
    (hk : ∀ d ∈ (fetchDevices env config).devices, getLabel d ≠ k) :
    (∀ kind, ((updateMetrics env config m).1.series kind).get? k = (m.series kind).get? k) ∧
      ∀ kind, ∀ d ∈ (fetchDevices env config).devices,
        (((updateMetrics env config m).1.series kind).get? (getLabel d)).isSome = true := by
  rw [updateMetrics_of_ok env config m hok]
  constructor
  · intro kind
    rw [get?_series_foldl, find?_reverse_label_of_not_mem _ k hk]
  · intro kind d hd
    obtain ⟨dl, hdl⟩ := find?_reverse_label_of_mem _ d hd
    rw [get?_series_foldl, hdl]
    rfl

/-- C6, on a rename: after a cycle that saw `d1`/`Room`/`S1`, a cycle that sees the
same device as `d1`/`Study`/`S1` keeps temperature 21.3 under the old key and has
an entry under the new key. -/
theorem absent_label_keeps_entry_witness :
    (fetchDevices (HttpEnv.answering 200 ⟨[{ roomDevice with Name := "Study" }], none⟩)
        sampleConfig).err = none ∧
    ((updateMetrics (HttpEnv.answering 200 ⟨[{ roomDevice with Name := "Study" }], none⟩)
        sampleConfig (updateDevice Metrics.empty roomDevice)).1.series .temperature).get?
          ⟨"d1", "Room", "S1"⟩ = some ⟨0x40354CCCCCCCCCCD⟩ ∧
    (((updateMetrics (HttpEnv.answering 200 ⟨[{ roomDevice with Name := "Study" }], none⟩)
        sampleConfig (updateDevice Metrics.empty roomDevice)).1.series .temperature).get?
          ⟨"d1", "Study", "S1"⟩).isSome = true :=
  have h := absent_label_keeps_entry
    (HttpEnv.answering 200 ⟨[{ roomDevice with Name := "Study" }], none⟩) sampleConfig
    (updateDevice Metrics.empty roomDevice) ⟨"d1", "Room", "S1"⟩ (by decide) (by decide)
  ⟨by decide, (h.1 .temperature).trans (by decide),
    h.2 .temperature { roomDevice with Name := "Study" } (by decide)⟩

/-! ## Label key stability -/

/-- C7: when two consecutive successful cycles return devices with the same set
of label keys, the second cycle creates no entry: in each series the keys after
the second cycle are the keys after the first, and each key of the second list
holds the value of the last device of the second list with that key.  A series
that started empty then has one entry per distinct label key of the fetch. -/
theorem label_key_stability (env₁ env₂ : HttpEnv) (config : Config) (m : Metrics)
    (hok₁ : (fetchDevices env₁ config).err = none)
    (hok₂ : (fetchDevices env₂ config).err = none)
    (hsame : ∀ k, k ∈ (fetchDevices env₁ config).devices.map getLabel
      ↔ k ∈ (fetchDevices env₂ config).devices.map getLabel) :
    (∀ kind, ((updateMetrics env₂ config (updateMetrics env₁ config m).1).1.series kind).keys
        = ((updateMetrics env₁ config m).1.series kind).keys) ∧
      (∀ kind k dl,
        (fetchDevices env₂ config).devices.reverse.find? (fun d => decide (getLabel d = k))
            = some dl →
          ((updateMetrics env₂ config (updateMetrics env₁ config m).1).1.series kind).get? k
            = some (gaugeValue kind dl)) ∧
      ∀ kind, m.series kind = [] →
        ((updateMetrics env₂ config (updateMetrics env₁ config m).1).1.series kind).length
          = ((fetchDevices env₁ config).devices.map getLabel).dedup.length := by
  rw [updateMetrics_of_ok env₂ config _ hok₂, updateMetrics_of_ok env₁ config m hok₁]
  have hkeys : ∀ kind,
      (((fetchDevices env₂ config).devices.foldl updateDevice
          ((fetchDevices env₁ config).devices.foldl updateDevice m)).series kind).keys
        = (((fetchDevices env₁ config).devices.foldl updateDevice m).series kind).keys := by
    intro kind
    apply keys_series_foldl_of_subset
    intro d hd
    rw [mem_keys_series_foldl]
    exact Or.inr ((hsame _).mpr (List.mem_map_of_mem getLabel hd))
  refine ⟨hkeys, ?_, ?_⟩
  · intro kind k dl hfind
    rw [get?_series_foldl, hfind]
  · intro kind hempty
    have hlen : ∀ vec : GaugeVec, vec.length = vec.keys.length := by
      intro vec
      simp [GaugeVec.keys]
    rw [hlen, hkeys kind]
    apply List.Perm.length_eq
    rw [List.perm_ext_iff_of_nodup]
    · intro k
      rw [mem_keys_series_foldl, hempty, List.mem_dedup]
      simp [GaugeVec.keys]
    · apply nodup_keys_series_foldl
      rw [hempty]
      exact List.nodup_nil
    · exact List.nodup_dedup _

/-- C7, on two devices sharing no field that are returned by two consecutive
fetches with changed temperatures: from the empty state the temperature series
has two entries, and `d1`/`Room`/`S1` holds the second fetch's value. -/
theorem label_key_stability_witness :
    (fetchDevices (HttpEnv.answering 200 ⟨[roomDevice, hallDevice], none⟩) sampleConfig).err
      = none ∧
    (fetchDevices (HttpEnv.answering 200
        ⟨[{ roomDevice with TemperatureOffset := ⟨0x3FF0000000000000⟩ }, hallDevice], none⟩)
      sampleConfig).err = none ∧
    ((updateMetrics (HttpEnv.answering 200
          ⟨[{ roomDevice with TemperatureOffset := ⟨0x3FF0000000000000⟩ }, hallDevice], none⟩)
        sampleConfig
        (updateMetrics (HttpEnv.answering 200 ⟨[roomDevice, hallDevice], none⟩) sampleConfig
          Metrics.empty).1).1.series .temperatureOffset).length = 2 ∧
    ((updateMetrics (HttpEnv.answering 200
          ⟨[{ roomDevice with TemperatureOffset := ⟨0x3FF0000000000000⟩ }, hallDevice], none⟩)
        sampleConfig
        (updateMetrics (HttpEnv.answering 200 ⟨[roomDevice, hallDevice], none⟩) sampleConfig
          Metrics.empty).1).1.series .temperatureOffset).get? ⟨"d1", "Room", "S1"⟩
      = some ⟨0x3FF0000000000000⟩ :=
  have h := label_key_stability (HttpEnv.answering 200 ⟨[roomDevice, hallDevice], none⟩)
    (HttpEnv.answering 200
      ⟨[{ roomDevice with TemperatureOffset := ⟨0x3FF0000000000000⟩ }, hallDevice], none⟩)
    sampleConfig Metrics.empty (by decide) (by decide) (fun _ => Iff.rfl)
  ⟨by decide, by decide, (h.2.2 .temperatureOffset rfl).trans (by decide),
    h.2.1 .temperatureOffset ⟨"d1", "Room", "S1"⟩
      { roomDevice with TemperatureOffset := ⟨0x3FF0000000000000⟩ } (by decide)⟩

/-! ## Fields that are not exported -/

/-- C10: two successful cycles from the same gauge state, over device lists of
equal length that agree position by position on id, name, serial number,
temperature offset and the newest temperature, humidity and illumination
values, end in the same gauge state (same series, same set calls), whatever the
movement reading, humidity offset, timestamps, MAC address and firmware
version are. -/
theorem unexported_fields_do_not_interfere (env env' : HttpEnv) (config : Config) (m : Metrics)
    (hok : (fetchDevices env config).err = none)
    (hok' : (fetchDevices env' config).err = none)
    (hagree : List.Forall₂ exportedAgree (fetchDevices env config).devices
      (fetchDevices env' config).devices) :
    (updateMetrics env config m).1 = (updateMetrics env' config m).1 := by
  rw [updateMetrics_of_ok env config m hok, updateMetrics_of_ok env' config m hok']
  exact foldl_updateDevice_congr m _ _ hagree

/-- C10, on `roomDevice` against a copy with another humidity offset, movement
reading, timestamps, MAC address and firmware version. -/
theorem unexported_fields_do_not_interfere_witness :
    (fetchDevices (HttpEnv.answering 200 ⟨[roomDevice], none⟩) sampleConfig).err = none ∧
    (fetchDevices (HttpEnv.answering 200
        ⟨[{ roomDevice with
              HumidityOffset := ⟨0x4014000000000000⟩, CreatedAt := 17, UpdatedAt := 42,
              FirmwareVersion := "Remo/1.0.77", MacAddress := "00:11:22:33:44:55",
              NewestEvents :=
                { roomDevice.NewestEvents with
                    Temperature := ⟨roomDevice.NewestEvents.Temperature.Val, 9⟩,
                    Movement := ⟨⟨0x3FF0000000000000⟩, 5⟩ } }], none⟩) sampleConfig).err = none ∧
    (updateMetrics (HttpEnv.answering 200 ⟨[roomDevice], none⟩) sampleConfig
        (updateDevice Metrics.empty hallDevice)).1
      = (updateMetrics (HttpEnv.answering 200
        ⟨[{ roomDevice with
              HumidityOffset := ⟨0x4014000000000000⟩, CreatedAt := 17, UpdatedAt := 42,
              FirmwareVersion := "Remo/1.0.77", MacAddress := "00:11:22:33:44:55",
              NewestEvents :=
                { roomDevice.NewestEvents with
                    Temperature := ⟨roomDevice.NewestEvents.Temperature.Val, 9⟩,
                    Movement := ⟨⟨0x3FF0000000000000⟩, 5⟩ } }], none⟩) sampleConfig
        (updateDevice Metrics.empty hallDevice)).1 :=
  ⟨by decide, by decide,
    unexported_fields_do_not_interfere _ _ sampleConfig (updateDevice Metrics.empty hallDevice)
      (by decide) (by decide)
      (List.Forall₂.cons ⟨rfl, rfl, rfl, rfl, rfl, rfl, rfl⟩ List.Forall₂.nil)⟩

/-! ## The request -/

/-- C8 as stated fails: for the base URL `host/a b` the request handed to the
client has the URL `https://host/a%20b/1/devices`, which is not the
concatenation `https://host/a b/1/devices`. -/
theorem fetchDevices_request_url_is_parsed :
    (fetchDevices HttpEnv.escaping ⟨⟨"X", "host/a b"⟩, ⟨":9199"⟩⟩).issued
        = [⟨"GET", "https://host/a%20b/1/devices", [("Authorization", "Bearer X")]⟩] ∧
      ¬ ∀ req ∈ (fetchDevices HttpEnv.escaping ⟨⟨"X", "host/a b"⟩, ⟨":9199"⟩⟩).issued,
        req.URL = "https://" ++ "host/a b" ++ "/1/devices" := by
  have hissued : (fetchDevices HttpEnv.escaping ⟨⟨"X", "host/a b"⟩, ⟨":9199"⟩⟩).issued
      = [⟨"GET", "https://host/a%20b/1/devices", [("Authorization", "Bearer X")]⟩] := by
    decide
  refine ⟨hissued, ?_⟩
  rw [hissued]
  intro h
  have := h _ (List.mem_singleton.mpr rfl)
  revert this
  decide

/-- C8, amended: `fetchDevices` hands at most one request to the HTTP client; every
request it hands over has method GET, the single header
`Authorization: Bearer ` ++ API key, and as URL what `http.NewRequest` made of the
string `https://` ++ base URL ++ `/1/devices`; so the URL is that string whenever
`http.NewRequest` leaves it as it is, and a request is handed over whenever
`http.NewRequest` accepts the string. -/
theorem fetchDevices_request (env : HttpEnv) (config : Config) :
    (fetchDevices env config).issued.length ≤ 1 ∧
      (∀ req ∈ (fetchDevices env config).issued,
        req.Method = "GET" ∧
        env.newRequest "GET" ("https://" ++ config.NatureRemo.BaseUrl ++ "/1/devices")
          = .ok req.URL ∧
        req.Header = [("Authorization", "Bearer " ++ config.NatureRemo.ApiKey)]) ∧
      (env.newRequest "GET" ("https://" ++ config.NatureRemo.BaseUrl ++ "/1/devices")
          = .ok ("https://" ++ config.NatureRemo.BaseUrl ++ "/1/devices") →
        (fetchDevices env config).issued
          = [⟨"GET", "https://" ++ config.NatureRemo.BaseUrl ++ "/1/devices",
              [("Authorization", "Bearer " ++ config.NatureRemo.ApiKey)]⟩]) ∧
      (∀ url, env.newRequest "GET" ("https://" ++ config.NatureRemo.BaseUrl ++ "/1/devices")
          = .ok url → (fetchDevices env config).issued.length = 1) := by
  cases hnew : env.newRequest "GET" ("https://" ++ config.NatureRemo.BaseUrl ++ "/1/devices") with
  | error e => simp [fetchDevices, hnew]
  | ok url =>
    cases hres : env.doRequest
        ⟨"GET", url, [("Authorization", "Bearer " ++ config.NatureRemo.ApiKey)]⟩ with
    | error e =>
      simp only [fetchDevices, hnew, hres, List.nil_append]
      refine ⟨by simp, by simp, ?_, by simp⟩
      intro h
      cases h
      rfl
    | ok r =>
      simp only [fetchDevices, hnew, hres, List.nil_append]
      refine ⟨by simp, by simp, ?_, by simp⟩
      intro h
      cases h
      rfl

/-- C8 amended, for API key `X`: with the default base URL the request goes to
`https://api.nature.global/1/devices`, and with the base URL `host/a b` one
request is handed over. -/
theorem fetchDevices_request_witness :
    (fetchDevices HttpEnv.unreachable sampleConfig).issued
        = [⟨"GET", "https://api.nature.global/1/devices", [("Authorization", "Bearer X")]⟩] ∧
      (fetchDevices HttpEnv.escaping ⟨⟨"X", "host/a b"⟩, ⟨":9199"⟩⟩).issued.length = 1 :=
  ⟨(fetchDevices_request HttpEnv.unreachable sampleConfig).2.2.1 rfl,
    (fetchDevices_request HttpEnv.escaping ⟨⟨"X", "host/a b"⟩, ⟨":9199"⟩⟩).2.2.2
      "https://host/a%20b/1/devices" rfl⟩

/-! ## Configuration defaults -/

/-- C9: when the arguments parse, the file opens and the document decodes, `setup`
returns a `Config` whose base URL is `api.nature.global` if the document has no
`nature_remo.base_url` or an empty one, and the document's value otherwise; the
API key and the listen address are the decoded values. -/
theorem setup_base_url_default (env : SetupEnv) (path : String) (doc : YamlDoc)
    (hparse : env.parseArgs = .ok path) (hopen : env.openFile path = some (.ok doc)) :
    ∃ cfg, setup env = .ok cfg ∧
      (doc.nature_remo_base_url = none ∨ doc.nature_remo_base_url = some "" →
        cfg.NatureRemo.BaseUrl = "api.nature.global") ∧
      (∀ v, doc.nature_remo_base_url = some v → v ≠ "" → cfg.NatureRemo.BaseUrl = v) ∧
      cfg.NatureRemo.ApiKey = (yamlDecode doc ⟨⟨"", ""⟩, ⟨""⟩⟩).NatureRemo.ApiKey ∧
      cfg.NatureRemo.ApiKey = doc.nature_remo_api_key.getD "" ∧
      cfg.PromHttp.ListenAddress = (yamlDecode doc ⟨⟨"", ""⟩, ⟨""⟩⟩).PromHttp.ListenAddress ∧
      cfg.PromHttp.ListenAddress = doc.promhttp_listen_address.getD "" := by
  obtain ⟨apiKey, baseUrl, listen⟩ := doc
  unfold setup
  simp only [hparse, hopen]
  cases baseUrl with
  | none => exact ⟨_, rfl, by simp [yamlDecode]⟩
  | some v =>
    by_cases hv : v = ""
    · subst hv
      exact ⟨_, rfl, by simp [yamlDecode]⟩
    · exact ⟨_, rfl, by simp [yamlDecode, hv]⟩

/-- C9, on a document without `base_url` and on one that names another host. -/
theorem setup_base_url_default_witness :
    setup ⟨.ok "config.yml", fun _ => some (.ok ⟨some "X", none, some ":9199"⟩)⟩
        = .ok ⟨⟨"X", "api.nature.global"⟩, ⟨":9199"⟩⟩ ∧
      setup ⟨.ok "config.yml", fun _ => some (.ok ⟨some "X", some "localhost:8080", some ":9199"⟩)⟩
        = .ok ⟨⟨"X", "localhost:8080"⟩, ⟨":9199"⟩⟩ ∧
      ∃ cfg, setup ⟨.ok "config.yml", fun _ => some (.ok ⟨some "X", some "", some ":9199"⟩)⟩
          = .ok cfg ∧ cfg.NatureRemo.BaseUrl = "api.nature.global" :=
  ⟨rfl, rfl,
    (setup_base_url_default ⟨.ok "config.yml", fun _ => some (.ok ⟨some "X", some "", some ":9199"⟩)⟩
      "config.yml" ⟨some "X", some "", some ":9199"⟩ rfl rfl).imp
      (fun _ h => ⟨h.1, h.2.1 (Or.inr rfl)⟩)⟩

/-! ## Responses with a non-success status -/

/-- C5 as stated fails: a response with status 500 whose body decodes to
`roomDevice` makes the first cycle set all five gauges. -/
theorem status_500_decodable_body_sets_gauges :
    (fetchDevices (HttpEnv.answering 500 ⟨[roomDevice], none⟩) sampleConfig).issued
        = [⟨"GET", "https://api.nature.global/1/devices", [("Authorization", "Bearer X")]⟩] ∧
      (HttpEnv.answering 500 ⟨[roomDevice], none⟩).doRequest
          ⟨"GET", "https://api.nature.global/1/devices", [("Authorization", "Bearer X")]⟩
        = .ok ⟨500, ⟨[roomDevice], none⟩⟩ ∧
      (updateMetrics (HttpEnv.answering 500 ⟨[roomDevice], none⟩) sampleConfig
          Metrics.empty).1 ≠ Metrics.empty ∧
      (updateMetrics (HttpEnv.answering 500 ⟨[roomDevice], none⟩) sampleConfig
          Metrics.empty).1.calls.length = 5 ∧
      (updateMetrics (HttpEnv.answering 500 ⟨[roomDevice], none⟩) sampleConfig
          Metrics.empty).1.temperature = [(⟨"d1", "Room", "S1"⟩, ⟨0x40354CCCCCCCCCCD⟩)] :=
  ⟨by decide, rfl, by decide, by decide, by decide⟩

/-- C5, amended: when the request is answered with status 500 and a body that
fails to decode, the gauge state after the cycle is the gauge state before it
(so it is empty after a first cycle). -/
theorem status_500_undecodable_body_keeps_gauges (env : HttpEnv) (config : Config)
    (m : Metrics) (req : Request) (resp : Response)
    (hreq : (fetchDevices env config).issued = [req])
    (hdo : env.doRequest req = .ok resp)
    (_hstatus : resp.StatusCode = 500)
    (hbody : resp.Body.decodeErr ≠ none) :
    (updateMetrics env config m).1 = m ∧
      (m = Metrics.empty → (updateMetrics env config m).1 = Metrics.empty) := by
  have herr : (fetchDevices env config).err ≠ none := by
    rw [(fetchDevices_err_of_response env config req resp hreq hdo).1]
    exact hbody
  rw [updateMetrics_of_err env config m herr]
  exact ⟨rfl, fun h => h⟩

/-- C5 amended, on a status 500 answer with an undecodable body, as first cycle. -/
theorem status_500_undecodable_body_keeps_gauges_witness :
    (fetchDevices (HttpEnv.garbled 500 []) sampleConfig).issued
        = [⟨"GET", "https://api.nature.global/1/devices", [("Authorization", "Bearer X")]⟩] ∧
      (updateMetrics (HttpEnv.garbled 500 []) sampleConfig Metrics.empty).1 = Metrics.empty :=
  ⟨by decide,
    (status_500_undecodable_body_keeps_gauges (HttpEnv.garbled 500 []) sampleConfig Metrics.empty
      ⟨"GET", "https://api.nature.global/1/devices", [("Authorization", "Bearer X")]⟩
      ⟨500, ⟨[], some "json: cannot unmarshal string into Go struct field Device.temperature_offset of type float64"⟩⟩
      (by decide) rfl rfl (by decide)).1⟩

/-! ## Error reporting and shutdown -/

/-- C3 fails on the code: with the API unreachable `fetchDevices` returns an
error, yet `updateMetrics` returns no error and the cycle started by `poll`
passes nothing to `cmd.Errorf`. -/
theorem updateMetrics_returns_nil_on_fetch_error :
    (fetchDevices HttpEnv.unreachable sampleConfig).err = some "dial tcp: connection refused" ∧
      (updateMetrics HttpEnv.unreachable sampleConfig Metrics.empty).2 = none ∧
      (poll sampleConfig [.tick HttpEnv.unreachable] ⟨Metrics.empty, [], []⟩).errors = [] ∧
      (poll sampleConfig [.tick HttpEnv.unreachable] ⟨Metrics.empty, [], []⟩).trace
        = [.cycleStarted] :=
  ⟨by decide, by decide, by decide, by decide⟩

/-- C4 fails on the code: after `poll` has received the shutdown signal, the next
tick still starts a refresh cycle, which sets the gauges. -/
theorem poll_starts_cycle_after_cancel :
    (poll sampleConfig [.cancel, .tick (HttpEnv.answering 200 ⟨[roomDevice], none⟩)]
        ⟨Metrics.empty, [], []⟩).trace = [.cancelReceived, .cycleStarted] ∧
      (poll sampleConfig [.cancel, .tick (HttpEnv.answering 200 ⟨[roomDevice], none⟩)]
        ⟨Metrics.empty, [], []⟩).metrics.temperature
        = [(⟨"d1", "Room", "S1"⟩, ⟨0x40354CCCCCCCCCCD⟩)] :=
  ⟨by decide, by decide⟩

end NatureRemo
